import Mathlib

/-!
# Verification of the vtsys payment orchestration core

A shallow embedding of the payment orchestration core of the `vtsys`
repository, together with proofs about its behaviour.

Embedded components (TypeScript source locations in comments):
* phone normalization and validation (`src/lib/payment-service.ts`,
  `PaymentService.validateAndNormalize`);
* the payment orchestrator (`PaymentService.processDirectPayment`,
  `PaymentService.callOneKitty`, `PaymentService.persistRequest`);
* the rate limiter (`RateLimiter.check`, `src/lib/rate-limit.ts`);
* the response cache and the rate gate of the contribute route
  (`src/lib/cache-utils.ts`, `src/app/api/contribute/route.ts`);
* the contribute route handler with its fire-and-forget vote crediting
  (`src/app/api/contribute/route.ts`).

Machine integers are modelled as `Nat`/`Int`; JavaScript numbers carrying
monetary amounts as `ℚ`; timestamps (`Date.now()`) as `Nat` milliseconds.
External effects (the gateway call, the database, `uuidv4`) are passed in
explicitly as data, so every definition is executable.
-/

set_option autoImplicit false

namespace VtSys

/-! ## Association lists

Both the Prisma `paymentRequest` table (keyed by idempotency key), the rate
limiter's `Map` store, and the in-memory response cache are modelled as
association lists with first-match lookup. -/

def alistFind {β : Type} (s : List (String × β)) (k : String) : Option β :=
  (s.find? (fun p => p.1 == k)).map (·.2)

def alistUpdate {β : Type} (s : List (String × β)) (k : String) (f : β → β) :
    List (String × β) :=
  s.map (fun p => if p.1 == k then (p.1, f p.2) else p)

/-- `Map.set` / plain JS-object assignment: replace if present, append if absent. -/
def alistSet {β : Type} (s : List (String × β)) (k : String) (v : β) :
    List (String × β) :=
  match alistFind s k with
  | some _ => alistUpdate s k (fun _ => v)
  | none => s ++ [(k, v)]

/-! ## Phone normalization (`PaymentService.validateAndNormalize`)

The phone pipeline of `src/lib/payment-service.ts` lines 119–148:
trim, prefix rewriting, stripping of non-digit characters, and the final
`/^2547\d{8}$/` test.  Strings are manipulated through their character
lists. -/

def isWS (c : Char) : Bool := c.isWhitespace

/-- `String.prototype.trim`: drop leading and trailing whitespace. -/
def trimChars (l : List Char) : List Char :=
  ((l.dropWhile isWS).reverse.dropWhile isWS).reverse

/-- `.replace(/\D/g, '')`: keep only digit characters. -/
def digitsOnly (l : List Char) : List Char := l.filter Char.isDigit

def allDigits (l : List Char) : Bool := l.all Char.isDigit

/-- The transformation applied to the raw phone string before the final
pattern test (payment-service.ts lines 119–136). -/
def normalizePhone (raw : List Char) : List Char :=
  let phone := trimChars raw
  let phone :=
    if ['0', '7'].isPrefixOf phone then
      ['2', '5', '4'] ++ phone.drop 1
    else if ['+', '2', '5', '4'].isPrefixOf phone then
      phone.drop 1
    else if !(['2', '5', '4'].isPrefixOf phone) && (phone.length == 9 && allDigits phone) then
      ['2', '5', '4'] ++ phone
    else phone
  digitsOnly phone

/-- The final test `/^2547\d{8}$/` (payment-service.ts line 139). -/
def isCanonicalPhone (p : List Char) : Bool :=
  ['2', '5', '4', '7'].isPrefixOf p && p.length == 12 && allDigits p

instance exceptDecEq {α β : Type} [DecidableEq α] [DecidableEq β] :
    DecidableEq (Except α β) := fun a b =>
  match a, b with
  | Except.error x, Except.error y =>
    if h : x = y then isTrue (by rw [h]) else isFalse (by intro hc; cases hc; exact h rfl)
  | Except.ok x, Except.ok y =>
    if h : x = y then isTrue (by rw [h]) else isFalse (by intro hc; cases hc; exact h rfl)
  | Except.error _, Except.ok _ => isFalse (by intro hc; cases hc)
  | Except.ok _, Except.error _ => isFalse (by intro hc; cases hc)

/-- The §4.3 `normalize` contract: the canonical phone on success, the
attempted canonical value on failure. -/
def normalize (raw : String) : Except String String :=
  let p := normalizePhone raw.toList
  if isCanonicalPhone p then Except.ok ⟨p⟩ else Except.error ⟨p⟩

/-! ## Payment service data model (`src/lib/payment-service.ts`) -/

/-- `z.enum(['mpesa', 'airtel', 'card'])` (payment-service.ts line 40). -/
inductive PayMethod where
  | mpesa
  | airtel
  | card
deriving DecidableEq

def PayMethod.str : PayMethod → String
  | PayMethod.mpesa => "mpesa"
  | PayMethod.airtel => "airtel"
  | PayMethod.card => "card"

/-- The shape of `paymentSchema` (payment-service.ts lines 26–42).  Absent
optional JSON fields are `none`. -/
structure PaymentInput where
  amount : ℚ
  kitty_id : String
  phone_number : String
  channel_code : Int
  auth_code : String
  first_name : Option String := none
  second_name : Option String := none
  show_names : Option Bool := none
  show_number : Option Bool := none
  paymentMethod : Option PayMethod := none
  idempotencyKey : Option String := none
deriving DecidableEq

/-- JavaScript `a || b` on an optional string: the empty string is falsy. -/
def jsOrStr (o : Option String) (d : String) : String :=
  match o with
  | some s => if s = "" then d else s
  | none => d

/-- JavaScript `a || null` on an optional string. -/
def orNull (o : Option String) : Option String :=
  match o with
  | some s => if s = "" then none else some s
  | none => none

/-- The `paymentSchema` checks (payment-service.ts lines 26–42): amount
positive and at least 1, non-empty `kitty_id`, `phone_number`, `auth_code`,
and a channel code that is allowed by the `ONE_KITTY_CHANNEL_CODES`
environment list (any code is accepted when the list is empty). -/
def schemaOk (channelCodes : List Int) (r : PaymentInput) : Bool :=
  decide (0 < r.amount) && decide (1 ≤ r.amount) &&
  (r.kitty_id != "") && (r.phone_number != "") &&
  (channelCodes.isEmpty || channelCodes.contains r.channel_code) &&
  (r.auth_code != "")

/-- `PaymentService.validateAndNormalize` (payment-service.ts lines
113–152): parse against the schema, then normalize the phone number and
require the canonical `2547XXXXXXXX` form.  The error value models the
thrown `ZodError`. -/
def validateAndNormalize (channelCodes : List Int) (raw : PaymentInput) :
    Except String PaymentInput :=
  if schemaOk channelCodes raw then
    let p := normalizePhone raw.phone_number.toList
    if isCanonicalPhone p then Except.ok { raw with phone_number := ⟨p⟩ }
    else Except.error ("Invalid phone number format: " ++ ⟨p⟩)
  else Except.error "schema validation failed"

/-! ## Gateway call (`PaymentService.callOneKitty`) -/

/-- The observable content of the single outbound POST to the OneKitty API:
the JSON payload fields derived from the request plus the
`Idempotency-Key` header (payment-service.ts lines 161–184). -/
structure GatewayCall where
  amount : ℚ
  kitty_id : String
  phone_number : String
  channel_code : Int
  auth_code : String
  idempotencyKey : String
deriving DecidableEq

def mkCall (d : PaymentInput) (key : String) : GatewayCall :=
  { amount := d.amount, kitty_id := d.kitty_id, phone_number := d.phone_number,
    channel_code := d.channel_code, auth_code := d.auth_code, idempotencyKey := key }

/-- How the environment answers the axios POST of `callOneKitty`:
* `respond`: axios resolved (status 200–499 per `validateStatus`) with a
  JSON body `{status, message, data: {transaction_id, checkout_url}}`;
* `errorWithResponse`: axios rejected but carried a response (HTTP ≥ 500);
* `networkError`: the request was made and no response arrived;
* `setupError`: a non-axios failure while issuing the request. -/
inductive GatewayOutcome where
  | respond (httpStatus : Nat) (status : Bool) (message : Option String)
      (transaction_id : Option String) (checkout_url : Option String)
  | errorWithResponse (httpStatus : Nat) (body : String)
  | networkError
  | setupError (msg : String)
deriving DecidableEq

/-- The value `callOneKitty` resolves to when it does not throw. -/
structure KittyResult where
  status : Bool
  message : String
  transactionId : Option String := none
  checkoutUrl : Option String := none
deriving DecidableEq

/-- `PaymentService.callOneKitty` (payment-service.ts lines 157–265) as a
function of the gateway's behaviour; `Except.error` models a thrown
exception propagating to `processDirectPayment`. -/
def callOneKitty (gw : GatewayOutcome) : Except String KittyResult :=
  match gw with
  | GatewayOutcome.respond httpStatus status message txId url =>
    if 400 ≤ httpStatus then
      Except.error ("OneKitty API error (" ++ toString httpStatus ++ ")")
    else
      Except.ok { status := status, message := jsOrStr message "Payment request processed",
                  transactionId := txId, checkoutUrl := url }
  | GatewayOutcome.errorWithResponse httpStatus body =>
    Except.ok { status := false,
                message := "API Error: " ++ toString httpStatus ++ " - " ++ body }
  | GatewayOutcome.networkError =>
    Except.ok { status := false,
                message := "Network error - the payment gateway could not be reached. Please check your connection." }
  | GatewayOutcome.setupError msg => Except.error msg

/-- Gateway-reported success: the call went through and the body carried a
truthy `status`. -/
def gatewayReportedSuccess (gw : GatewayOutcome) : Bool :=
  match gw with
  | GatewayOutcome.respond httpStatus status _ _ _ => decide (httpStatus < 400) && status
  | _ => false

/-! ## Payment record store (`PaymentService.persistRequest`) -/

/-- A row of the Prisma `paymentRequest` table, as created/updated by
`persistRequest` (payment-service.ts lines 286–311); the row id is the
idempotency key, kept as the association-list key. -/
structure StoredPayment where
  amount : ℚ
  candidateId : String
  channelCode : Int
  phoneNumber : String
  paymentMethod : String
  firstName : Option String
  secondName : Option String
  showNames : Bool
  showNumber : Bool
  status : String
  responseMessage : String
  transactionId : Option String
  checkoutUrl : Option String
deriving DecidableEq

abbrev PaymentStore := List (String × StoredPayment)

def dbFind (s : PaymentStore) (k : String) : Option StoredPayment := alistFind s k

/-- The `update` clause of the upsert (payment-service.ts lines 304–310):
it overwrites exactly `status`, `responseMessage`, `transactionId` and
`checkoutUrl` (plus `updatedAt`, not modelled). -/
def updateRec (old : StoredPayment) (status message : String)
    (txId url : Option String) : StoredPayment :=
  { old with status := status, responseMessage := message,
             transactionId := txId, checkoutUrl := url }

/-- `prisma.paymentRequest.upsert` keyed by the idempotency key:
create-if-absent, else apply the `update` clause. -/
def upsertPayment (s : PaymentStore) (k : String) (create : StoredPayment)
    (status message : String) (txId url : Option String) : PaymentStore :=
  match dbFind s k with
  | some _ => alistUpdate s k (fun old => updateRec old status message txId url)
  | none => s ++ [(k, create)]

/-- Persistence environment: `persistEnabled` is the
`NODE_ENV`/`DATABASE_URL` gate of payment-service.ts line 281 (when false
the data is only logged), `dbOk` tells whether the Prisma upsert succeeds
(when false it throws and the error is caught and swallowed, lines
322–331). -/
structure DbEnv where
  persistEnabled : Bool
  dbOk : Bool
deriving DecidableEq

/-- The `create` clause of the upsert (payment-service.ts lines 288–303). -/
def createRec (data : PaymentInput) (status message : String)
    (txId url : Option String) : StoredPayment :=
  { amount := data.amount, candidateId := data.kitty_id,
    channelCode := data.channel_code, phoneNumber := data.phone_number,
    paymentMethod := (data.paymentMethod.map PayMethod.str).getD "mpesa",
    firstName := orNull data.first_name, secondName := orNull data.second_name,
    showNames := data.show_names.getD false, showNumber := data.show_number.getD true,
    status := status, responseMessage := message,
    transactionId := txId, checkoutUrl := url }

/-- `PaymentService.persistRequest` (payment-service.ts lines 270–332):
best-effort upsert; the store is unchanged when persistence is disabled by
the environment gate or the upsert throws. -/
def persistRequest (db : DbEnv) (s : PaymentStore) (data : PaymentInput)
    (key status message : String) (txId url : Option String) : PaymentStore :=
  if db.persistEnabled && db.dbOk then
    upsertPayment s key (createRec data status message txId url) status message txId url
  else s

/-! ## The payment orchestrator (`PaymentService.processDirectPayment`) -/

/-- The `data` payload of a successful `PaymentResponse`
(payment-service.ts lines 50–53; the `!` assertions on lines 104–105 do
not check at runtime, so the fields stay optional). -/
structure RespData where
  transactionId : Option String
  checkoutUrl : Option String
deriving DecidableEq

/-- `PaymentResponse` (payment-service.ts lines 47–55); `errors` models the
`err.format()` value attached on validation failure. -/
structure PaymentResponse where
  status : Bool
  message : String
  data : Option RespData := none
  errors : Option String := none
deriving DecidableEq

/-- Everything observable about one `processDirectPayment` call: the value
returned to the caller, the outbound gateway calls issued, and the payment
store afterwards. -/
structure ProcResult where
  response : PaymentResponse
  calls : List GatewayCall
  store : PaymentStore
deriving DecidableEq

/-- `data.idempotencyKey || uuidv4()` (payment-service.ts line 75);
`fresh` stands for the `uuidv4()` value of this call. -/
def chooseKey (supplied : Option String) (fresh : String) : String :=
  jsOrStr supplied fresh

/-- `PaymentService.processDirectPayment` (payment-service.ts lines
62–108), as a function of the environment channel-code list, the
persistence environment, the gateway's behaviour and the `uuidv4` value of
this call. -/
def processDirectPayment (channelCodes : List Int) (db : DbEnv)
    (gw : GatewayOutcome) (fresh : String) (store0 : PaymentStore)
    (rawData : PaymentInput) : ProcResult :=
  match validateAndNormalize channelCodes rawData with
  | Except.error e =>
    { response := { status := false, message := "Validation error", errors := some e },
      calls := [], store := store0 }
  | Except.ok data =>
    let idempotencyKey := chooseKey data.idempotencyKey fresh
    let call := mkCall data idempotencyKey
    match callOneKitty gw with
    | Except.error msg =>
      { response := { status := false, message := msg },
        calls := [call],
        store := persistRequest db store0 data idempotencyKey "failed" msg none none }
    | Except.ok result =>
      let store1 := persistRequest db store0 data idempotencyKey
        (if result.status then "processing" else "failed") result.message
        (orNull result.transactionId) (orNull result.checkoutUrl)
      if result.status then
        { response := { status := true, message := result.message,
                        data := some { transactionId := result.transactionId,
                                       checkoutUrl := result.checkoutUrl } },
          calls := [call], store := store1 }
      else
        { response := { status := false, message := result.message },
          calls := [call], store := store1 }

/-! ## Rate limiter (`RateLimiter`, src/lib/rate-limit.ts) -/

/-- The effective `this.options` record of a `RateLimiter` instance. -/
structure RLOptions where
  limit : Nat
  windowMs : Nat
  burstLimit : Nat
  burstWindowExtension : Nat
deriving DecidableEq

/-- The `burst` sub-record of a `RateLimitEntry`. -/
structure BurstState where
  count : Nat
  resetTime : Nat
deriving DecidableEq

/-- `RateLimitEntry` (rate-limit.ts lines 18–25); `burst` is optional in
the interface. -/
structure RLEntry where
  count : Nat
  resetTime : Nat
  burst : Option BurstState
deriving DecidableEq

abbrev RLStore := List (String × RLEntry)

def rlFind (s : RLStore) (k : String) : Option RLEntry := alistFind s k

def rlSet (s : RLStore) (k : String) (e : RLEntry) : RLStore := alistSet s k e

/-- The constructor defaulting (rate-limit.ts lines 32–38): every field is
guarded with JavaScript `||`, and the burst default is
`Math.floor(options.limit * 0.5)` computed from the raw option. -/
def mkRLOptions (limit windowMs : Nat) (burstLimit burstWindowExtension : Option Nat) :
    RLOptions :=
  { limit := if limit = 0 then 60 else limit,
    windowMs := if windowMs = 0 then 60000 else windowMs,
    burstLimit :=
      match burstLimit with
      | some b => if b = 0 then limit / 2 else b
      | none => limit / 2,
    burstWindowExtension :=
      match burstWindowExtension with
      | some e => if e = 0 then 10000 else e
      | none => 10000 }

/-- The `voteRateLimiter` instance guarding the contribute route
(rate-limit.ts lines 125–129). -/
def voteRateLimiterOptions : RLOptions := mkRLOptions 300 60000 (some 150) none

/-- The value returned by `RateLimiter.check`. -/
structure CheckResult where
  allowed : Bool
  remaining : Int
  resetTime : Nat
deriving DecidableEq

/-- The branch of `check` taken when no entry exists or the entry has
expired (rate-limit.ts lines 57–68). -/
def checkFresh (o : RLOptions) (s : RLStore) (key : String) (now : Nat) :
    CheckResult × RLStore :=
  let e : RLEntry :=
    { count := 1, resetTime := now + o.windowMs,
      burst := some { count := 0, resetTime := now + o.windowMs } }
  ({ allowed := true, remaining := (o.limit : Int) - 1, resetTime := e.resetTime },
   rlSet s key e)

/-- `RateLimiter.check` (rate-limit.ts lines 52–90). -/
def check (o : RLOptions) (s : RLStore) (key : String) (now : Nat) :
    CheckResult × RLStore :=
  match rlFind s key with
  | none => checkFresh o s key now
  | some e =>
    if e.resetTime ≤ now then checkFresh o s key now
    else if e.count < o.limit then
      let e1 : RLEntry := { e with count := e.count + 1 }
      ({ allowed := true, remaining := (o.limit : Int) - (e.count + 1 : Nat),
         resetTime := e.resetTime }, rlSet s key e1)
    else
      match e.burst with
      | some b =>
        if b.count < o.burstLimit then
          let newReset := max e.resetTime (now + o.burstWindowExtension)
          let e1 : RLEntry :=
            { e with resetTime := newReset,
                     burst := some { count := b.count + 1, resetTime := b.resetTime } }
          ({ allowed := true, remaining := 0, resetTime := newReset }, rlSet s key e1)
        else ({ allowed := false, remaining := 0, resetTime := e.resetTime }, s)
      | none => ({ allowed := false, remaining := 0, resetTime := e.resetTime }, s)

/-- Run a sequence of `check` calls for one key at the given instants,
collecting the admission decisions. -/
def runChecks (o : RLOptions) (key : String) : RLStore → List Nat → List Bool
  | _, [] => []
  | s, t :: ts =>
    let r := check o s key t
    r.1.allowed :: runChecks o key r.2 ts

/-- Specification shape of the per-key entry after `k` admissions granted
at base reset time `R` (burst sub-reset `br`): the base counter saturates
at `limit`, the burst counter absorbs the excess up to `burstLimit`. -/
def windowEntry (o : RLOptions) (k R br : Nat) : RLEntry :=
  { count := min k o.limit, resetTime := R,
    burst := some { count := min (k - o.limit) o.burstLimit, resetTime := br } }

/-- All requests of the sequence fall within one window for the key: a
request finding an existing entry arrives strictly before that entry's
current reset time (the first request, finding no entry, opens the
window). -/
def withinWindow (o : RLOptions) (key : String) : RLStore → List Nat → Bool
  | _, [] => true
  | s, t :: ts =>
    (match rlFind s key with
     | some e => decide (t < e.resetTime)
     | none => true) &&
    withinWindow o key (check o s key t).2 ts

/-! ## Response cache and the rate gate of the contribute route
(`src/lib/cache-utils.ts` and `src/app/api/contribute/route.ts`) -/

/-- A cache slot (cache-utils.ts lines 14–17). -/
structure CacheEntry where
  value : CheckResult
  expiry : Nat
deriving DecidableEq

abbrev CacheStore := List (String × CacheEntry)

/-- `getCacheItem` (cache-utils.ts lines 25–35): a present entry is served
unless its expiry lies strictly in the past. -/
def getCacheItem (c : CacheStore) (k : String) (now : Nat) : Option CheckResult :=
  match alistFind c k with
  | none => none
  | some item => if item.expiry < now then none else some item.value

/-- `setCacheItem` (cache-utils.ts lines 40–45). -/
def setCacheItem (c : CacheStore) (k : String) (v : CheckResult) (ttl now : Nat) :
    CacheStore :=
  alistSet c k { value := v, expiry := now + ttl }

/-- Shared mutable state of the contribute route: the response cache and
the rate limiter's store. -/
structure GateState where
  cache : CacheStore
  rl : RLStore
deriving DecidableEq

/-- The admission-control prologue of the contribute route handler
(route.ts lines 34–42): serve a cached rate-limit decision when present,
otherwise invoke `voteRateLimiter.check` and cache its result for one
second. -/
def rateGate (o : RLOptions) (st : GateState) (ip : String) (now : Nat) :
    CheckResult × GateState :=
  let cacheKey := "rate_limit:" ++ ip
  match getCacheItem st.cache cacheKey now with
  | some r => (r, st)
  | none =>
    let r := check o st.rl ip now
    (r.1, { cache := setCacheItem st.cache cacheKey r.1 1000 now, rl := r.2 })

/-- Run a sequence of gate decisions for one client (cache path). -/
def gateRun (o : RLOptions) (ip : String) : GateState → List Nat → List Bool
  | _, [] => []
  | st, t :: ts =>
    let r := rateGate o st ip t
    r.1.allowed :: gateRun o ip r.2 ts

/-! ## The contribute route handler (`src/app/api/contribute/route.ts`) -/

/-- `kitty_id: z.union([z.string().min(1), z.number().positive()])`
(route.ts line 12). -/
inductive KittyId where
  | str (s : String)
  | num (n : Int)
deriving DecidableEq

/-- `String(kitty_id)` (route.ts line 225). -/
def KittyId.toStr : KittyId → String
  | KittyId.str s => s
  | KittyId.num n => toString n

/-- `paymentMethod: z.enum(['mpesa', 'card'])` (route.ts line 20). -/
inductive RoutePayMethod where
  | mpesa
  | card
deriving DecidableEq

/-- The shape validated by the route's own `paymentSchema` (route.ts lines
10–21). -/
structure RouteInput where
  amount : ℚ
  kitty_id : KittyId
  phone_number : String
  channel_code : Option Int := none
  auth_code : Option String := none
  first_name : Option String := none
  second_name : Option String := none
  show_names : Option Bool := none
  show_number : Option Bool := none
  paymentMethod : RoutePayMethod
deriving DecidableEq

/-- The route's schema checks (route.ts lines 10–21). -/
def routeSchemaOk (r : RouteInput) : Bool :=
  decide (0 < r.amount) && decide (1 ≤ r.amount) &&
  (match r.kitty_id with
   | KittyId.str s => s != ""
   | KittyId.num n => decide (0 < n)) &&
  (r.phone_number != "")

/-- The route's own phone massaging (route.ts lines 104–111): `07…` to
`254…`, then trim and removal of all whitespace. -/
def routeFormatPhone (p : String) : String :=
  let f := if ['0', '7'].isPrefixOf p.toList then "254" ++ ⟨p.toList.drop 1⟩ else p
  ⟨(trimChars f.toList).filter (fun c => !c.isWhitespace)⟩

/-- The route's lenient phone test (route.ts line 112):
`/^\d+$/.test(formattedPhone.replace(/^\+/, ''))`. -/
def routePhoneOk (formatted : String) : Bool :=
  let l :=
    match formatted.toList with
    | '+' :: rest => rest
    | l => l
  !l.isEmpty && allDigits l

/-- The response body of the gateway fetch, as far as the handler reads
it: `{status, message}` (route.ts lines 221, 250–252). -/
structure RouteBody where
  status : Bool
  message : Option String
deriving DecidableEq

/-- How the environment answers the handler's `fetch`: a response with
`response.ok`, its HTTP status and its parsed JSON body (`none` when the
body fails to parse), or a thrown fetch error (`aborted` distinguishes the
15-second timeout). -/
inductive FetchOutcome where
  | response (ok : Bool) (httpStatus : Nat) (body : Option RouteBody)
  | fetchError (aborted : Bool)
deriving DecidableEq

/-- The classes of HTTP responses the contribute handler can produce. -/
inductive RouteResp where
  | rateLimited
  | badRequest (msg : String)
  | serverError (msg : String)
  | gatewayFail (httpStatus : Nat)
  | success (message : String)
  | fallback
deriving DecidableEq

/-- `Math.max(1, Math.floor(amount / 10))` (route.ts line 226). -/
def voteCount (amount : ℚ) : Int := max 1 ⌊amount / 10⌋

/-- Everything observable about one contribute-handler invocation: the
response class, the vote increments scheduled fire-and-forget, and whether
the gateway fetch was issued. -/
structure RouteResult where
  resp : RouteResp
  increments : List (String × Int)
  gatewayCalled : Bool
deriving DecidableEq

/-- The contribute route handler (route.ts lines 27–301), as a function of
the limiter options, the shared gate state, the client ip, the clock, the
parsed request body (`none` when JSON parsing fails) and the fetch
outcome.  Returns the observable result and the updated gate state. -/
def contributeHandler (o : RLOptions) (st : GateState) (ip : String) (now : Nat)
    (reqBody : Option RouteInput) (fetch : FetchOutcome) : RouteResult × GateState :=
  let g := rateGate o st ip now
  let st1 := g.2
  if !g.1.allowed then
    ({ resp := RouteResp.rateLimited, increments := [], gatewayCalled := false }, st1)
  else
    match reqBody with
    | none =>
      ({ resp := RouteResp.badRequest "Invalid request format", increments := [],
         gatewayCalled := false }, st1)
    | some inp =>
      if !routeSchemaOk inp then
        ({ resp := RouteResp.badRequest "Invalid payment data", increments := [],
           gatewayCalled := false }, st1)
      else
        let formatted := routeFormatPhone inp.phone_number
        if !routePhoneOk formatted then
          ({ resp := RouteResp.badRequest "Invalid phone number format", increments := [],
             gatewayCalled := false }, st1)
        else
          match fetch with
          | FetchOutcome.fetchError aborted =>
            ({ resp := RouteResp.serverError
                 (if aborted then "The payment request timed out. Please try again."
                  else "Failed to connect to payment server"),
               increments := [], gatewayCalled := true }, st1)
          | FetchOutcome.response ok httpStatus body =>
            match body with
            | none =>
              ({ resp := RouteResp.serverError "Invalid response from payment server",
                 increments := [], gatewayCalled := true }, st1)
            | some data =>
              if !ok then
                ({ resp := RouteResp.gatewayFail httpStatus, increments := [],
                   gatewayCalled := true }, st1)
              else if data.status then
                ({ resp := RouteResp.success
                     (jsOrStr data.message
                       (match inp.paymentMethod with
                        | RoutePayMethod.mpesa =>
                          "M-Pesa payment initiated. Please check your phone for the payment prompt."
                        | RoutePayMethod.card => "Payment initiated successfully")),
                   increments := [(inp.kitty_id.toStr, voteCount inp.amount)],
                   gatewayCalled := true }, st1)
              else
                ({ resp := RouteResp.fallback, increments := [], gatewayCalled := true },
                 st1)

/-- Gateway-reported success as seen by the contribute handler: the fetch
resolved, the body parsed, `response.ok` held and the body's `status` was
truthy. -/
def fetchSuccess : FetchOutcome → Bool
  | FetchOutcome.response ok _ (some body) => ok && body.status
  | _ => false

/-! ## Concrete sample data (used by witnesses and counterexamples) -/

def rawSample : PaymentInput :=
  { amount := 100, kitty_id := "CAND1", phone_number := "0712345678",
    channel_code := 63902, auth_code := "AUTH7", idempotencyKey := some "KEY1" }

def dataSample : PaymentInput :=
  { rawSample with phone_number := "254712345678" }

def routeInput25 : RouteInput :=
  { amount := 25, kitty_id := KittyId.str "CAND1", phone_number := "0712345678",
    paymentMethod := RoutePayMethod.mpesa }

def routeInput5 : RouteInput :=
  { amount := 5, kitty_id := KittyId.str "CAND1", phone_number := "0712345678",
    paymentMethod := RoutePayMethod.mpesa }

/-! ## Association-list lemmas -/

theorem alistFind_nil {β : Type} (k : String) : alistFind ([] : List (String × β)) k = none := rfl

theorem alistFind_cons {β : Type} (a : String) (b : β) (s : List (String × β)) (k : String) :
    alistFind ((a, b) :: s) k = if a == k then some b else alistFind s k := by
  by_cases h : a == k <;> simp [alistFind, List.find?_cons, h]

theorem alistFind_alistUpdate_self {β : Type} (s : List (String × β)) (k : String)
    (f : β → β) (v : β) (h : alistFind s k = some v) :
    alistFind (alistUpdate s k f) k = some (f v) := by
  induction s with
  | nil => simp [alistFind] at h
  | cons p s ih =>
    obtain ⟨a, b⟩ := p
    by_cases hk : a = k
    · subst hk
      have hb : b = v := by simpa [alistFind_cons] using h
      subst hb
      simp [alistUpdate, alistFind_cons]
    · have h' : alistFind s k = some v := by simpa [alistFind_cons, hk] using h
      simpa [alistUpdate, alistFind_cons, hk] using ih h'

theorem alistFind_append_right {β : Type} (s : List (String × β)) (k : String) (v : β)
    (h : alistFind s k = none) :
    alistFind (s ++ [(k, v)]) k = some v := by
  induction s with
  | nil => simp [alistFind, List.find?]
  | cons p s ih =>
    obtain ⟨a, b⟩ := p
    by_cases hk : a = k
    · simp [alistFind_cons, hk] at h
    · have h' : alistFind s k = none := by simpa [alistFind_cons, hk] using h
      simpa [List.cons_append, alistFind_cons, hk] using ih h'

theorem alistFind_alistSet_self {β : Type} (s : List (String × β)) (k : String) (v : β) :
    alistFind (alistSet s k v) k = some v := by
  unfold alistSet
  cases h : alistFind s k with
  | none => exact alistFind_append_right s k v h
  | some w => exact alistFind_alistUpdate_self s k (fun _ => v) w h

/-! ## Supporting lemmas about the orchestrator -/

theorem dbFind_upsertPayment_self (s : PaymentStore) (k : String) (c : StoredPayment)
    (st m : String) (t u : Option String) :
    dbFind (upsertPayment s k c st m t u) k =
      some ((dbFind s k).elim c (fun old => updateRec old st m t u)) := by
  unfold upsertPayment
  cases hf : dbFind s k with
  | none => exact alistFind_append_right s k c hf
  | some old => simpa using alistFind_alistUpdate_self s k _ old hf

theorem gatewaySuccess_of_ok (gw : GatewayOutcome) (result : KittyResult)
    (h : callOneKitty gw = Except.ok result) :
    gatewayReportedSuccess gw = result.status := by
  cases gw with
  | respond httpStatus status message txId url =>
    by_cases h4 : 400 ≤ httpStatus
    · simp [callOneKitty, h4] at h
    · simp only [callOneKitty, if_neg h4, Except.ok.injEq] at h
      subst h
      simp [gatewayReportedSuccess, Nat.lt_of_not_le h4]
  | errorWithResponse httpStatus body =>
    simp only [callOneKitty, Except.ok.injEq] at h
    subst h
    rfl
  | networkError =>
    simp only [callOneKitty, Except.ok.injEq] at h
    subst h
    rfl
  | setupError msg => simp [callOneKitty] at h

theorem gatewaySuccess_of_error (gw : GatewayOutcome) (msg : String)
    (h : callOneKitty gw = Except.error msg) :
    gatewayReportedSuccess gw = false := by
  cases gw with
  | respond httpStatus status message txId url =>
    by_cases h4 : 400 ≤ httpStatus
    · simp [gatewayReportedSuccess, Nat.not_lt.mpr h4]
    · simp [callOneKitty, h4] at h
  | errorWithResponse httpStatus body => simp [callOneKitty] at h
  | networkError => simp [callOneKitty] at h
  | setupError m => rfl

/-! ## C1 — the idempotency key of the outbound gateway call -/

/-- C1: for every input that passes validation, `processDirectPayment`
issues exactly one outbound gateway call, and that call's
`Idempotency-Key` header carries the chosen key: the caller-supplied key
when one is present (JavaScript-truthy, i.e. non-empty), and the freshly
synthesized `uuidv4` value otherwise.  Since the key is a function of the
input alone, two calls with the same supplied key transmit the same key,
and no single call ever issues two gateway calls with distinct keys. -/
theorem idempotency_key_transmitted (channelCodes : List Int) (db : DbEnv)
    (gw : GatewayOutcome) (fresh : String) (store0 : PaymentStore)
    (raw data : PaymentInput)
    (hv : validateAndNormalize channelCodes raw = Except.ok data) :
    (processDirectPayment channelCodes db gw fresh store0 raw).calls.map
        GatewayCall.idempotencyKey = [chooseKey data.idempotencyKey fresh] ∧
    (∀ k, data.idempotencyKey = some k → k ≠ "" →
      chooseKey data.idempotencyKey fresh = k) ∧
    (data.idempotencyKey = none → chooseKey data.idempotencyKey fresh = fresh) := by
  refine ⟨?_, ?_, ?_⟩
  · unfold processDirectPayment
    rw [hv]
    cases hc : callOneKitty gw with
    | error msg => simp [mkCall]
    | ok result => by_cases hs : result.status <;> simp [mkCall, hs]
  · intro k hk hne
    simp [chooseKey, jsOrStr, hk, hne]
  · intro hk
    simp [chooseKey, jsOrStr, hk]

theorem idempotency_key_transmitted_witness :
    (processDirectPayment [] ⟨true, true⟩
        (GatewayOutcome.respond 200 true (some "ok") (some "TX1") (some "U"))
        "FRESH" [] rawSample).calls.map GatewayCall.idempotencyKey = ["KEY1"] := by
  have h := idempotency_key_transmitted [] ⟨true, true⟩
    (GatewayOutcome.respond 200 true (some "ok") (some "TX1") (some "U"))
    "FRESH" [] rawSample dataSample (by decide)
  rw [h.1, h.2.1 "KEY1" rfl (by decide)]

/-! ## C2 — malformed phone numbers are rejected before any effect -/

/-- C2: whenever the raw phone does not reduce to the canonical
`2547` + 8 digits form, `processDirectPayment` returns `status: false`
with a validation-error payload, issues no gateway call, and leaves the
payment store untouched. -/
theorem malformed_phone_rejected (channelCodes : List Int) (db : DbEnv)
    (gw : GatewayOutcome) (fresh : String) (store0 : PaymentStore)
    (raw : PaymentInput)
    (h : isCanonicalPhone (normalizePhone raw.phone_number.toList) = false) :
    (processDirectPayment channelCodes db gw fresh store0 raw).response.status = false ∧
    (processDirectPayment channelCodes db gw fresh store0 raw).response.message =
      "Validation error" ∧
    (processDirectPayment channelCodes db gw fresh store0 raw).response.errors.isSome = true ∧
    (processDirectPayment channelCodes db gw fresh store0 raw).calls = [] ∧
    (processDirectPayment channelCodes db gw fresh store0 raw).store = store0 := by
  have h2 : isCanonicalPhone (normalizePhone raw.phone_number.data) = false := h
  have hv : ∃ e, validateAndNormalize channelCodes raw = Except.error e := by
    unfold validateAndNormalize
    by_cases hs : schemaOk channelCodes raw
    · simp [hs, h2]
    · simp [hs]
  obtain ⟨e, hv⟩ := hv
  simp [processDirectPayment, hv]

theorem malformed_phone_rejected_witness :
    (processDirectPayment [] ⟨true, true⟩
        (GatewayOutcome.respond 200 true none none none) "FRESH" []
        { rawSample with phone_number := "12345" }).calls = [] := by
  have h := malformed_phone_rejected [] ⟨true, true⟩
    (GatewayOutcome.respond 200 true none none none) "FRESH" []
    { rawSample with phone_number := "12345" } (by decide)
  exact h.2.2.2.1

/-! ## C3 — the outcome of an issued gateway call is persisted -/

/-- C3: when validation passes (so a gateway call is actually issued) and
the persistence layer is enabled and operational, a `PaymentRequest`
record keyed by the idempotency key exists afterwards, with status
`processing` exactly when the gateway reported success and `failed`
otherwise — a record is never absent after a call was issued. -/
theorem issued_call_persists_record (channelCodes : List Int)
    (gw : GatewayOutcome) (fresh : String) (store0 : PaymentStore)
    (raw data : PaymentInput)
    (hv : validateAndNormalize channelCodes raw = Except.ok data) :
    (processDirectPayment channelCodes ⟨true, true⟩ gw fresh store0 raw).calls ≠ [] ∧
    ∃ rec, dbFind (processDirectPayment channelCodes ⟨true, true⟩ gw fresh store0 raw).store
        (chooseKey data.idempotencyKey fresh) = some rec ∧
      rec.status = (if gatewayReportedSuccess gw then "processing" else "failed") := by
  constructor
  · unfold processDirectPayment
    rw [hv]
    cases hc : callOneKitty gw with
    | error msg => simp
    | ok result => by_cases hs : result.status <;> simp [hs]
  · unfold processDirectPayment
    rw [hv]
    cases hc : callOneKitty gw with
    | error msg =>
      rw [gatewaySuccess_of_error gw msg hc]
      simp only [persistRequest, Bool.and_self, if_true, if_false, Bool.false_eq_true]
      exact ⟨_, dbFind_upsertPayment_self store0 _ _ _ _ _ _, by
        cases hf : dbFind store0 (chooseKey data.idempotencyKey fresh) <;>
          simp [hf, createRec, updateRec]⟩
    | ok result =>
      rw [gatewaySuccess_of_ok gw result hc]
      by_cases hs : result.status <;>
        simp only [hs, if_true, if_false, persistRequest, Bool.and_self] <;>
        exact ⟨_, dbFind_upsertPayment_self store0 _ _ _ _ _ _, by
          cases hf : dbFind store0 (chooseKey data.idempotencyKey fresh) <;>
            simp [hf, createRec, updateRec]⟩

theorem issued_call_persists_record_witness :
    ∃ rec, dbFind (processDirectPayment [] ⟨true, true⟩
        (GatewayOutcome.respond 200 true (some "ok") (some "TX1") (some "U"))
        "FRESH" [] rawSample).store "KEY1" = some rec ∧
      rec.status = "processing" := by
  have h := issued_call_persists_record []
    (GatewayOutcome.respond 200 true (some "ok") (some "TX1") (some "U"))
    "FRESH" [] rawSample dataSample (by decide)
  obtain ⟨-, rec, hrec, hst⟩ := h
  exact ⟨rec, by simpa [chooseKey, jsOrStr] using hrec, by simpa using hst⟩

/-! ## C4 — persistence failures never change the caller-visible result -/

/-- C4: for every gateway outcome, the `PaymentResponse` returned by
`processDirectPayment` is identical whether the persistence upsert
succeeds or throws; the persistence failure is swallowed and never alters
the status, message or data obtained from the gateway. -/
theorem persistence_failure_transparent (channelCodes : List Int) (pe : Bool)
    (gw : GatewayOutcome) (fresh : String) (store0 : PaymentStore)
    (raw : PaymentInput) :
    (processDirectPayment channelCodes ⟨pe, true⟩ gw fresh store0 raw).response =
    (processDirectPayment channelCodes ⟨pe, false⟩ gw fresh store0 raw).response := by
  unfold processDirectPayment
  cases validateAndNormalize channelCodes raw with
  | error e => rfl
  | ok data =>
    cases callOneKitty gw with
    | error msg => rfl
    | ok result => by_cases hs : result.status <;> simp [hs]

/-! ## C8 — the upsert's update clause and terminal fields -/

/-- C8 counterexample: the claim "a previously recorded non-null
transactionId is never overwritten with null by a later upsert for the
same key" is false.  A first successful call persists
`transactionId = "TX1"` under key `KEY1`; a retry with the same key that
hits a network error persists `failed` with `transactionId: null`, and the
stored transaction id is gone. -/
theorem upsert_downgrades_transactionId_cex :
    ((dbFind (processDirectPayment [] ⟨true, true⟩
        (GatewayOutcome.respond 200 true (some "ok") (some "TX1") (some "U"))
        "F1" [] rawSample).store "KEY1").map StoredPayment.transactionId
      = some (some "TX1")) ∧
    ((dbFind (processDirectPayment [] ⟨true, true⟩ GatewayOutcome.networkError "F2"
        (processDirectPayment [] ⟨true, true⟩
          (GatewayOutcome.respond 200 true (some "ok") (some "TX1") (some "U"))
          "F1" [] rawSample).store rawSample).store "KEY1").map
        StoredPayment.transactionId = some none) := by
  constructor
  · decide
  · decide

/-- C8 amended: when a record for the key already exists, the upsert's
update clause overwrites exactly the four outcome fields — `status`,
`responseMessage`, `transactionId` and `checkoutUrl` — with the new
values, unconditionally; in particular a previously recorded non-null
`transactionId` IS replaced by the new value even when that value is null,
while all other fields of the record are preserved. -/
theorem upsert_update_overwrites_outcome_fields (s : PaymentStore) (k : String)
    (c old : StoredPayment) (st m : String) (t u : Option String)
    (h : dbFind s k = some old) :
    dbFind (upsertPayment s k c st m t u) k = some (updateRec old st m t u) ∧
    (updateRec old st m t u).transactionId = t ∧
    (updateRec old st m t u).checkoutUrl = u ∧
    (updateRec old st m t u).status = st ∧
    (updateRec old st m t u).amount = old.amount ∧
    (updateRec old st m t u).candidateId = old.candidateId ∧
    (updateRec old st m t u).phoneNumber = old.phoneNumber := by
  refine ⟨?_, rfl, rfl, rfl, rfl, rfl, rfl⟩
  rw [dbFind_upsertPayment_self, h]
  rfl

/-! ## Rate limiter lemmas -/

theorem rlFind_single (key : String) (e : RLEntry) : rlFind [(key, e)] key = some e := by
  simp [rlFind, alistFind, List.find?]

theorem rlSet_single (key : String) (e e1 : RLEntry) :
    rlSet [(key, e)] key e1 = [(key, e1)] := by
  simp [rlSet, alistSet, alistFind, List.find?, alistUpdate]

/-- One `check` step from the symbolic within-window state: the request is
admitted exactly while fewer than `limit + burstLimit` admissions have been
granted, and the state keeps the `windowEntry` shape with the admission
counter advanced (capped) and some new base reset time. -/
theorem check_window_step (o : RLOptions) (key : String) (t k R br : Nat)
    (hkLB : k ≤ o.limit + o.burstLimit) (hin : t < R) :
    (check o [(key, windowEntry o k R br)] key t).1.allowed
        = decide (k < o.limit + o.burstLimit) ∧
    ∃ R2, (check o [(key, windowEntry o k R br)] key t).2
        = [(key, windowEntry o (min (k + 1) (o.limit + o.burstLimit)) R2 br)] := by
  have hfind := rlFind_single key (windowEntry o k R br)
  by_cases hcl : k < o.limit
  · have h1 : min k o.limit = k := by omega
    have h2 : min (k - o.limit) o.burstLimit = 0 := by omega
    have h3 : min (k + 1) (o.limit + o.burstLimit) = k + 1 := by omega
    have h4 : min (k + 1) o.limit = k + 1 := by omega
    have h5 : min (k + 1 - o.limit) o.burstLimit = 0 := by omega
    refine ⟨?_, R, ?_⟩
    · unfold check
      simp only [hfind]
      simp only [windowEntry, h1, h2]
      rw [if_neg (Nat.not_le.mpr hin), if_pos hcl]
      exact (decide_eq_true (by omega)).symm
    · unfold check
      simp only [hfind]
      simp only [windowEntry, h1, h2, h3, h4, h5]
      rw [if_neg (Nat.not_le.mpr hin), if_pos hcl, rlSet_single]
  · by_cases hbl : k < o.limit + o.burstLimit
    · have h1 : min k o.limit = o.limit := by omega
      have h2 : min (k - o.limit) o.burstLimit = k - o.limit := by omega
      have h3 : min (k + 1) (o.limit + o.burstLimit) = k + 1 := by omega
      have h4 : min (k + 1) o.limit = o.limit := by omega
      have h5 : min (k + 1 - o.limit) o.burstLimit = k - o.limit + 1 := by omega
      refine ⟨?_, max R (t + o.burstWindowExtension), ?_⟩
      · unfold check
        simp only [hfind]
        simp only [windowEntry, h1, h2]
        rw [if_neg (Nat.not_le.mpr hin), if_neg (lt_irrefl o.limit),
          if_pos (show k - o.limit < o.burstLimit by omega)]
        exact (decide_eq_true (by omega)).symm
      · unfold check
        simp only [hfind]
        simp only [windowEntry, h1, h2, h3, h4, h5]
        rw [if_neg (Nat.not_le.mpr hin), if_neg (lt_irrefl o.limit),
          if_pos (show k - o.limit < o.burstLimit by omega), rlSet_single]
    · have hk : k = o.limit + o.burstLimit := by omega
      have h1 : min k o.limit = o.limit := by omega
      have h2 : min (k - o.limit) o.burstLimit = o.burstLimit := by omega
      have h3 : min (k + 1) (o.limit + o.burstLimit) = k := by omega
      refine ⟨?_, R, ?_⟩
      · unfold check
        simp only [hfind]
        simp only [windowEntry, h1, h2]
        rw [if_neg (Nat.not_le.mpr hin), if_neg (lt_irrefl o.limit),
          if_neg (lt_irrefl o.burstLimit)]
        exact (decide_eq_false (by omega)).symm
      · unfold check
        simp only [hfind]
        simp only [windowEntry, h1, h2, h3]
        rw [if_neg (Nat.not_le.mpr hin), if_neg (lt_irrefl o.limit),
          if_neg (lt_irrefl o.burstLimit)]

/-- The run invariant: starting from the symbolic within-window state with
`k` admissions already granted, the `i`-th result of the remaining run is
`allowed` exactly while `k + i < limit + burstLimit`. -/
theorem runChecks_window_invariant (o : RLOptions) (key : String) :
    ∀ (times : List Nat) (k R br : Nat), k ≤ o.limit + o.burstLimit →
    withinWindow o key [(key, windowEntry o k R br)] times = true →
    ∀ i, i < times.length →
    (runChecks o key [(key, windowEntry o k R br)] times).getD i false
      = decide (k + i < o.limit + o.burstLimit) := by
  intro times
  induction times with
  | nil => intro k R br _ _ i hi; simp at hi
  | cons t ts ih =>
    intro k R br hkLB hw i hi
    have hw1 : t < R := by
      have := (Bool.and_eq_true _ _).mp hw
      have h1 := this.1
      rw [rlFind_single] at h1
      simpa [windowEntry] using h1
    obtain ⟨hallow, R2, hst⟩ := check_window_step o key t k R br hkLB hw1
    have hw2 : withinWindow o key
        [(key, windowEntry o (min (k + 1) (o.limit + o.burstLimit)) R2 br)] ts = true := by
      have := (Bool.and_eq_true _ _).mp hw
      rw [hst] at this
      exact this.2
    cases i with
    | zero =>
      simp only [runChecks, List.getD_cons_zero, hallow]
      exact decide_eq_decide.mpr (by omega)
    | succ j =>
      have hj : j < ts.length := by simpa using hi
      have := ih (min (k + 1) (o.limit + o.burstLimit)) R2 br (by omega) hw2 j hj
      simp only [runChecks, List.getD_cons_succ, hst]
      rw [this]
      exact decide_eq_decide.mpr (by omega)

/-! ## C6 — exactly limit + burst admissions per window -/

/-- C6: for every client key and every effective rate-limiter
configuration with base limit `L ≥ 1` and burst allowance `B`, among the
requests for that key that fall within one window (starting from no entry
for the key), exactly the first `L + B` calls to `check` return
`allowed = true`, and every later request in the same window returns
`allowed = false`. -/
theorem rate_limiter_admits_exactly_limit_plus_burst (o : RLOptions) (key : String)
    (times : List Nat) (i : Nat) (hL : 1 ≤ o.limit)
    (hw : withinWindow o key [] times = true) (hi : i < times.length) :
    (runChecks o key [] times).getD i false = decide (i < o.limit + o.burstLimit) := by
  cases times with
  | nil => simp at hi
  | cons t ts =>
    have h1 : min 1 o.limit = 1 := by omega
    have h2 : min (1 - o.limit) o.burstLimit = 0 := by omega
    have hstep : check o [] key t
        = ({ allowed := true, remaining := (o.limit : Int) - 1, resetTime := t + o.windowMs },
           [(key, windowEntry o 1 (t + o.windowMs) (t + o.windowMs))]) := by
      unfold check checkFresh
      simp only [rlFind, alistFind_nil, rlSet, alistSet, List.nil_append, windowEntry, h1, h2]
    have hw2 : withinWindow o key
        [(key, windowEntry o 1 (t + o.windowMs) (t + o.windowMs))] ts = true := by
      simp only [withinWindow, hstep, rlFind, alistFind_nil, Bool.and_eq_true] at hw
      exact hw.2
    cases i with
    | zero =>
      simp only [runChecks, hstep, List.getD_cons_zero]
      exact (decide_eq_true (by omega)).symm
    | succ j =>
      have hj : j < ts.length := by simpa using hi
      have hInv := runChecks_window_invariant o key ts 1 (t + o.windowMs) (t + o.windowMs)
        (by omega) hw2 j hj
      simp only [runChecks, hstep, List.getD_cons_succ]
      rw [hInv]
      exact decide_eq_decide.mpr (by omega)

theorem rate_limiter_admits_exactly_limit_plus_burst_witness :
    (runChecks ⟨2, 1000, 1, 100⟩ "client" [] [5, 5, 5, 5]).getD 3 false = false := by
  have h := rate_limiter_admits_exactly_limit_plus_burst ⟨2, 1000, 1, 100⟩ "client"
    [5, 5, 5, 5] 3 (by decide) (by decide) (by decide)
  simpa using h

theorem upsert_update_overwrites_outcome_fields_witness :
    dbFind (upsertPayment [("K", createRec rawSample "processing" "ok" (some "TX1") none)]
        "K" (createRec rawSample "failed" "down" none none) "failed" "down" none none) "K"
      = some (updateRec (createRec rawSample "processing" "ok" (some "TX1") none)
          "failed" "down" none none) := by
  exact (upsert_update_overwrites_outcome_fields
    [("K", createRec rawSample "processing" "ok" (some "TX1") none)] "K"
    (createRec rawSample "failed" "down" none none)
    (createRec rawSample "processing" "ok" (some "TX1") none)
    "failed" "down" none none (by decide)).1

/-! ## C9 — what consuming a burst admission does to the reset time -/

/-- C9 counterexample: the claim "consuming a burst admission extends the
window's reset time by `burstWindowExtension`" is false.  With options
`{limit 1, windowMs 60000, burstLimit 1, burstWindowExtension 10000}`, a
first request at `t = 0` opens the window (`resetTime = 60000`); the
second request at `t = 0` consumes a burst admission (it is allowed and
the burst counter becomes 1), yet the reset time stays `60000` — it is
neither `60000 + 10000` nor changed at all, because the code computes
`max(resetTime, now + extension)`. -/
theorem burst_no_fixed_extension_cex :
    ((check ⟨1, 60000, 1, 10000⟩ (check ⟨1, 60000, 1, 10000⟩ [] "ip" 0).2 "ip" 0).1.allowed
        = true) ∧
    ((check ⟨1, 60000, 1, 10000⟩ (check ⟨1, 60000, 1, 10000⟩ [] "ip" 0).2 "ip" 0).1.resetTime
        = 60000) ∧
    ((rlFind (check ⟨1, 60000, 1, 10000⟩ (check ⟨1, 60000, 1, 10000⟩ [] "ip" 0).2 "ip" 0).2
        "ip").map RLEntry.burst = some (some ⟨1, 60000⟩)) ∧
    ((rlFind (check ⟨1, 60000, 1, 10000⟩ (check ⟨1, 60000, 1, 10000⟩ [] "ip" 0).2 "ip" 0).2
        "ip").map RLEntry.resetTime = some 60000) ∧
    (60000 : Nat) ≠ 60000 + 10000 := by
  exact ⟨by decide, by decide, by decide, by decide, by decide⟩

/-- C9 amended: a check that consumes a burst admission (base limit
exhausted, burst allowance not yet exhausted) is allowed and sets the
window's reset time to `max(previous resetTime, now + burstWindowExtension)`
— the reset time never decreases, and is pushed out only as far as
`now + burstWindowExtension`, not increased by a fixed amount. -/
theorem burst_admission_reset_update (o : RLOptions) (s : RLStore) (key : String)
    (now : Nat) (e : RLEntry) (b : BurstState)
    (h1 : rlFind s key = some e) (h2 : now < e.resetTime)
    (h3 : ¬ e.count < o.limit) (h4 : e.burst = some b)
    (h5 : b.count < o.burstLimit) :
    (check o s key now).1.allowed = true ∧
    (check o s key now).1.resetTime = max e.resetTime (now + o.burstWindowExtension) ∧
    rlFind (check o s key now).2 key
      = some { e with resetTime := max e.resetTime (now + o.burstWindowExtension),
                      burst := some { count := b.count + 1, resetTime := b.resetTime } } ∧
    e.resetTime ≤ (check o s key now).1.resetTime := by
  have hstep : check o s key now
      = ({ allowed := true, remaining := 0,
           resetTime := max e.resetTime (now + o.burstWindowExtension) },
         rlSet s key { e with resetTime := max e.resetTime (now + o.burstWindowExtension),
                              burst := some { count := b.count + 1, resetTime := b.resetTime } }) := by
    unfold check
    simp only [h1, h4]
    rw [if_neg (Nat.not_le.mpr h2), if_neg h3, if_pos h5]
  rw [hstep]
  exact ⟨rfl, rfl, alistFind_alistSet_self s key _, le_max_left _ _⟩

theorem burst_admission_reset_update_witness :
    (check ⟨1, 60000, 1, 10000⟩ [("ip", ⟨1, 60000, some ⟨0, 60000⟩⟩)] "ip" 5).1.resetTime
      = max 60000 (5 + 10000) := by
  exact (burst_admission_reset_update ⟨1, 60000, 1, 10000⟩
    [("ip", ⟨1, 60000, some ⟨0, 60000⟩⟩)] "ip" 5 ⟨1, 60000, some ⟨0, 60000⟩⟩ ⟨0, 60000⟩
    (by decide) (by decide) (by decide) (by decide) (by decide)).2.1

/-! ## C10 — the cached rate-limit decision versus the limiter alone -/

/-- C10 counterexample: the claim that the admission decisions served
through the response-cache path equal those the rate limiter alone would
produce (in particular that caching never admits a request the limiter
would have rejected) is false.  With effective options
`{limit 1, windowMs 60000, burstLimit 0, burstWindowExtension 10000}` and
two requests from one client at `t = 0` and `t = 500`, the cache path
admits both (the second is served from the 1-second cache of the first
`allowed` result), while the limiter alone rejects the second. -/
theorem cache_gate_not_equivalent_cex :
    gateRun ⟨1, 60000, 0, 10000⟩ "client" ⟨[], []⟩ [0, 500] = [true, true] ∧
    runChecks ⟨1, 60000, 0, 10000⟩ "client" [] [0, 500] = [true, false] := by
  exact ⟨by decide, by decide⟩

/-- C10 amended: the caching layer is only a memoization of limiter
outputs: on a cache miss the gate invokes `RateLimiter.check` directly,
returns exactly the limiter's decision, advances the limiter's state
exactly as `check` does, and stores exactly that limiter output (with a
1-second TTL) — cache entries only ever hold rate-limiter outputs.
However, a cache hit within the TTL serves the cached decision without
consulting the limiter, so the cache path can admit requests the limiter
alone would have rejected. -/
theorem cache_miss_falls_back_to_limiter (o : RLOptions) (st : GateState)
    (ip : String) (now : Nat)
    (h : getCacheItem st.cache ("rate_limit:" ++ ip) now = none) :
    (rateGate o st ip now).1 = (check o st.rl ip now).1 ∧
    (rateGate o st ip now).2.rl = (check o st.rl ip now).2 ∧
    (rateGate o st ip now).2.cache
      = setCacheItem st.cache ("rate_limit:" ++ ip) (check o st.rl ip now).1 1000 now := by
  unfold rateGate
  simp [h]

theorem cache_miss_falls_back_to_limiter_witness :
    (rateGate ⟨1, 60000, 0, 10000⟩ ⟨[], []⟩ "client" 0).1
      = (check ⟨1, 60000, 0, 10000⟩ [] "client" 0).1 := by
  exact (cache_miss_falls_back_to_limiter ⟨1, 60000, 0, 10000⟩ ⟨[], []⟩ "client" 0
    (by decide)).1

/-! ## C7 — normalization of trunk-prefixed local numbers -/

/-- C7 counterexample: for the 9-digit local number `N = "712345678"`, the
claim says `normalize("07" + N)` succeeds and returns `"2547" + N`; in
fact `"07" ++ "712345678"` (11 characters) is rewritten to the 13-digit
string `"2547712345678"`, which fails the strict 12-digit
`/^2547\d{8}$/` check, so normalization fails. -/
theorem normalize_nine_digit_local_cex :
    normalize ("07" ++ "712345678") = Except.error "2547712345678" := by decide

theorem isDigit_not_isWS (c : Char) (h : c.isDigit = true) : isWS c = false := by
  cases hws : c.isWhitespace with
  | false => simpa [isWS] using hws
  | true =>
    exfalso
    unfold Char.isWhitespace at hws
    simp only [Bool.or_eq_true, decide_eq_true_eq] at hws
    rcases hws with ((h1 | h1) | h1) | h1 <;> subst h1 <;> exact absurd h (by decide)

theorem dropWhile_eq_self_of_none (p : Char → Bool) (l : List Char)
    (h : ∀ c ∈ l, p c = false) : l.dropWhile p = l := by
  cases l with
  | nil => rfl
  | cons a l =>
    have ha : p a = false := h a (List.mem_cons_self a l)
    simp [List.dropWhile_cons, ha]

theorem trimChars_of_allDigits (l : List Char) (h : allDigits l = true) :
    trimChars l = l := by
  have hd : ∀ c ∈ l, c.isDigit = true := by
    simpa [allDigits, List.all_eq_true] using h
  have hws : ∀ c ∈ l, isWS c = false := fun c hc => isDigit_not_isWS c (hd c hc)
  unfold trimChars
  rw [dropWhile_eq_self_of_none _ _ hws,
    dropWhile_eq_self_of_none _ _ (fun c hc => hws c (List.mem_reverse.mp hc)),
    List.reverse_reverse]

theorem digitsOnly_of_allDigits (l : List Char) (h : allDigits l = true) :
    digitsOnly l = l := by
  unfold digitsOnly
  rw [List.filter_eq_self]
  simpa [allDigits, List.all_eq_true] using h

/-- C7 amended: the claim holds with the local digits after the `07` trunk
prefix being the remaining 8 digits of the canonical 12-digit form (not
9): for every 8-character all-digit string `M`, `normalize ("07" ++ M)`
succeeds and returns `"2547" ++ M`; and normalization is a pure function,
so it is deterministic by construction. -/
theorem normalize_trunk_local_number (M : List Char) (h8 : M.length = 8)
    (hd : allDigits M = true) :
    normalize ⟨'0' :: '7' :: M⟩ = Except.ok ⟨'2' :: '5' :: '4' :: '7' :: M⟩ := by
  have hall : allDigits ('0' :: '7' :: M) = true := by
    simp only [allDigits, List.all_cons, Bool.and_eq_true]
    exact ⟨by decide, by decide, hd⟩
  have hall2 : allDigits ('2' :: '5' :: '4' :: '7' :: M) = true := by
    simp only [allDigits, List.all_cons, Bool.and_eq_true]
    exact ⟨by decide, by decide, by decide, by decide, hd⟩
  have htrim : trimChars ('0' :: '7' :: M) = '0' :: '7' :: M :=
    trimChars_of_allDigits _ hall
  have hpre : ['0', '7'].isPrefixOf ('0' :: '7' :: M) = true := by
    simp [List.isPrefixOf]
  have hcanon : isCanonicalPhone ('2' :: '5' :: '4' :: '7' :: M) = true := by
    simp only [isCanonicalPhone, Bool.and_eq_true]
    refine ⟨⟨by simp [List.isPrefixOf], ?_⟩, hall2⟩
    simp [h8]
  have hnorm : normalizePhone ('0' :: '7' :: M) = '2' :: '5' :: '4' :: '7' :: M := by
    unfold normalizePhone
    rw [htrim]
    simp only [hpre, if_true]
    exact digitsOnly_of_allDigits _ hall2
  unfold normalize
  have hlist : (String.mk ('0' :: '7' :: M)).toList = '0' :: '7' :: M := rfl
  rw [hlist, hnorm, if_pos hcanon]

theorem normalize_trunk_local_number_witness :
    normalize ⟨['0', '7', '1', '2', '3', '4', '5', '6', '7', '8']⟩
      = Except.ok ⟨['2', '5', '4', '7', '1', '2', '3', '4', '5', '6', '7', '8']⟩ := by
  exact normalize_trunk_local_number ['1', '2', '3', '4', '5', '6', '7', '8']
    (by decide) (by decide)

/-! ## C5 — vote-credit scheduling by the contribute handler -/

/-- C5: for every admitted, schema-valid request whose phone passes the
route's check, the contribute handler schedules exactly one asynchronous
vote-credit increment for `String(kitty_id)` of
`max(1, floor(amount / 10))` votes when the gateway fetch succeeds with a
truthy body status, and schedules no increment when the gateway reports
failure, cannot be reached, or returns an unparseable or non-OK
response. -/
theorem vote_credit_scheduling (o : RLOptions) (st : GateState) (ip : String)
    (now : Nat) (inp : RouteInput) (fetch : FetchOutcome)
    (hrate : (rateGate o st ip now).1.allowed = true)
    (hschema : routeSchemaOk inp = true)
    (hphone : routePhoneOk (routeFormatPhone inp.phone_number) = true) :
    (contributeHandler o st ip now (some inp) fetch).1.increments
      = (if fetchSuccess fetch
         then [(inp.kitty_id.toStr, max 1 ⌊inp.amount / 10⌋)]
         else []) := by
  unfold contributeHandler
  simp only [hrate, hschema, hphone, Bool.not_true, Bool.false_eq_true, if_false]
  cases fetch with
  | fetchError aborted => rfl
  | response ok httpStatus body =>
    cases body with
    | none => rfl
    | some data =>
      cases hok : ok with
      | false => rfl
      | true =>
        cases hst : data.status with
        | false => simp [fetchSuccess, hst, voteCount]
        | true => simp [fetchSuccess, hst, voteCount]

theorem vote_credit_scheduling_witness :
    (contributeHandler voteRateLimiterOptions ⟨[], []⟩ "1.2.3.4" 0 (some routeInput25)
        (FetchOutcome.response true 200 (some ⟨true, some "ok"⟩))).1.increments
      = [("CAND1", 2)] ∧
    (contributeHandler voteRateLimiterOptions ⟨[], []⟩ "1.2.3.4" 0 (some routeInput5)
        (FetchOutcome.response true 200 (some ⟨true, some "ok"⟩))).1.increments
      = [("CAND1", 1)] ∧
    (contributeHandler voteRateLimiterOptions ⟨[], []⟩ "1.2.3.4" 0 (some routeInput25)
        (FetchOutcome.fetchError false)).1.increments = [] := by
  refine ⟨?_, ?_, ?_⟩
  · rw [vote_credit_scheduling voteRateLimiterOptions ⟨[], []⟩ "1.2.3.4" 0 routeInput25
      (FetchOutcome.response true 200 (some ⟨true, some "ok"⟩))
      (by decide) (by decide) (by decide)]
    norm_num [fetchSuccess, routeInput25, KittyId.toStr]
  · rw [vote_credit_scheduling voteRateLimiterOptions ⟨[], []⟩ "1.2.3.4" 0 routeInput5
      (FetchOutcome.response true 200 (some ⟨true, some "ok"⟩))
      (by decide) (by decide) (by decide)]
    norm_num [fetchSuccess, routeInput5, KittyId.toStr]
  · rw [vote_credit_scheduling voteRateLimiterOptions ⟨[], []⟩ "1.2.3.4" 0 routeInput25
      (FetchOutcome.fetchError false)
      (by decide) (by decide) (by decide)]
    norm_num [fetchSuccess]

end VtSys
